import Mathlib

/-!
# Verification of the HyperHook hypervisor core

Shallow embedding of the hypervisor's VM-exit dispatcher, lifecycle
controller, EPT hook registry and cross-core dispatch primitives, translated
from `src/driver/ept.hpp` (header + `hypervisor.cpp`), `src/driver/thread.hpp`
(+ its implementation file) and `src/driver/vmx.hpp`.

Machine integers are modelled as `Nat` with explicit `% 2^32` / `% 2^64`
reductions where the C++ code truncates or sign-extends.  Functions that can
halt the machine (`KeBugCheckEx`) return `Option`; functions that throw
return `Option`/flags mirroring the `try`/`catch` blocks of the callers.
-/

namespace HyperHook

/-! ## Constants (from `vmx.hpp` / `ept.hpp` and the ia32 headers) -/

/-- `HYPERV_HYPERVISOR_PRESENT_BIT` (vmx.hpp): CPUID leaf 1, ECX bit 31. -/
def HYPERV_HYPERVISOR_PRESENT_BIT : Nat := 0x80000000

/-- `HYPERV_CPUID_INTERFACE` (vmx.hpp): the vendor-signature CPUID leaf. -/
def HYPERV_CPUID_INTERFACE : Nat := 0x40000001

/-- The multi-character literal `'momo'` used as the vendor signature. -/
def momo : Nat := 0x6D6F6D6F

/-- `DPL_SYSTEM` (hypervisor.cpp). -/
def DPL_SYSTEM : Nat := 0

/-- `SEGMENT_ACCESS_RIGHTS_DESCRIPTOR_PRIVILEGE_LEVEL_MASK` from the ia32
headers: the unshifted two-bit privilege-level mask.  `hypervisor.cpp` uses it
both to read the RPL of the guest CS selector (`is_system`) and to clear the
RPL bits of host selectors (`SegCs & ~MASK`). -/
def SEGMENT_ACCESS_RIGHTS_DESCRIPTOR_PRIVILEGE_LEVEL_MASK : Nat := 3

/-- The Windows kernel-mode code-segment selector (RPL = 0), the CS in force
when driver code such as `disable_core` or `is_hypervisor_present` executes. -/
def kernel_cs : Nat := 0x10

/-! ## CPUID dispatcher (`vmx_handle_cpuid`, hypervisor.cpp) -/

/-- Result of a bare-metal `__cpuidex`: four 32-bit registers. -/
structure CpuidResult where
  eax : Nat
  ebx : Nat
  ecx : Nat
  edx : Nat

/-- Bare-metal CPUID oracle: `(leaf, subleaf) ↦ (eax, ebx, ecx, edx)`.
Models the hardware `__cpuidex` executed on behalf of the guest. -/
def CpuidOracle := Nat → Nat → CpuidResult

/-- The guest general-purpose registers the dispatcher touches
(`guest_context.vp_regs`, 64-bit each). -/
structure GuestRegs where
  rax : Nat
  rbx : Nat
  rcx : Nat
  rdx : Nat

/-- The slice of `vmx::guest_context` (vmx.hpp) plus VMCS-held guest state
that `vmx_handle_cpuid` reads or writes.  `cs_selector` is
`VMCS_GUEST_CS_SELECTOR`; `syscall_hooks` models the VMCS side effects of
`vmx_enable_syscall_hooks(true)`. -/
structure GuestContext where
  regs : GuestRegs
  cs_selector : Nat
  exit_vm : Bool
  increment_rip : Bool
  syscall_hooks : Bool

/-- `is_system()` (hypervisor.cpp):
`(read_vmx(VMCS_GUEST_CS_SELECTOR) & DPL_MASK) == DPL_SYSTEM`. -/
def is_system (ctx : GuestContext) : Bool :=
  (ctx.cs_selector &&& SEGMENT_ACCESS_RIGHTS_DESCRIPTOR_PRIVILEGE_LEVEL_MASK) == DPL_SYSTEM

/-- Assigning an `INT32` to the `DWORD64` context register sign-extends;
`sext32 x` is the 64-bit value stored for the 32-bit quantity `x`. -/
def sext32 (x : Nat) : Nat :=
  let lo := x % 4294967296
  if lo < 2147483648 then lo else lo + 0xFFFFFFFF00000000

/-- The non-cookie tail of `vmx_handle_cpuid` (hypervisor.cpp): execute
`__cpuidex` on behalf of the guest with the truncated 32-bit `(EAX, ECX)`,
set the hypervisor-present bit for leaf 1 or the vendor signature for the
interface leaf (both tests compare the full 64-bit `Rax`), and write the
`INT32` results back into the 64-bit guest registers (sign-extending). -/
def cpuid_emulate (cpuid : CpuidOracle) (ctx : GuestContext) : GuestContext :=
  let info := cpuid (ctx.regs.rax % 4294967296) (ctx.regs.rcx % 4294967296)
  let info :=
    if ctx.regs.rax == 1 then
      { info with ecx := (info.ecx % 4294967296) ||| HYPERV_HYPERVISOR_PRESENT_BIT }
    else if ctx.regs.rax == HYPERV_CPUID_INTERFACE then
      { info with eax := momo }
    else info
  { ctx with
    regs := { rax := sext32 info.eax, rbx := sext32 info.ebx,
              rcx := sext32 info.ecx, rdx := sext32 info.edx } }

/-- `vmx_handle_cpuid` (hypervisor.cpp).  Ordering and comparisons follow the
source: the two cookie tests compare the full 64-bit `Rax`/`Rcx` and require
`is_system()`; everything else falls through to ordinary emulation. -/
def vmx_handle_cpuid (cpuid : CpuidOracle) (ctx : GuestContext) : GuestContext :=
  if ctx.regs.rax == 0x41414141 && ctx.regs.rcx == 0x42424243 && is_system ctx then
    { ctx with syscall_hooks := true }
  else if ctx.regs.rax == 0x41414141 && ctx.regs.rcx == 0x42424242 && is_system ctx then
    { ctx with exit_vm := true }
  else
    cpuid_emulate cpuid ctx

/-- A CPUID executed by kernel code on a virtualized CPU traps into the
dispatcher; this is the register file the kernel observes afterwards. -/
def cpuid_query (cpuid : CpuidOracle) (leaf subleaf : Nat) : GuestRegs :=
  (vmx_handle_cpuid cpuid
    { regs := { rax := leaf, rbx := 0, rcx := subleaf, rdx := 0 },
      cs_selector := kernel_cs, exit_vm := false, increment_rip := true,
      syscall_hooks := false }).regs

/-- `is_hypervisor_present()` (hypervisor.cpp): CPUID leaf 1 must report the
hypervisor-present ECX bit and leaf `0x40000001` must return the `'momo'`
signature.  On a virtualized CPU both CPUIDs are filtered by the dispatcher;
on a bare CPU the oracle answers directly. -/
def is_hypervisor_present_model (cpuid : CpuidOracle) (virtualized : Bool) : Bool :=
  if virtualized then
    (((cpuid_query cpuid 1 0).rcx % 4294967296) &&& HYPERV_HYPERVISOR_PRESENT_BIT) != 0
      && ((cpuid_query cpuid HYPERV_CPUID_INTERFACE 0).rax % 4294967296) == momo
  else
    (((cpuid 1 0).ecx % 4294967296) &&& HYPERV_HYPERVISOR_PRESENT_BIT) != 0
      && (((cpuid HYPERV_CPUID_INTERFACE 0).eax % 4294967296) == momo)

/-! ## Lifecycle controller (`hypervisor::enable` / `disable` / `disable_core`) -/

/-- Effect of `__cpuidex(cpu_info, 0x41414141, 0x42424242)` issued by
`disable_core` (kernel mode, CPL 0) on the current CPU's virtualization flag:
on a virtualized CPU the CPUID traps, the dispatcher sets `exit_vm`, and
`vm_exit_handler` executes `VMXOFF`; on a bare CPU it is an ordinary CPUID. -/
def issue_magic_cpuid (cpuid : CpuidOracle) (virtualized : Bool) : Bool :=
  if virtualized then
    let ctx : GuestContext :=
      { regs := { rax := 0x41414141, rbx := 0, rcx := 0x42424242, rdx := 0 },
        cs_selector := kernel_cs, exit_vm := false, increment_rip := true,
        syscall_hooks := false }
    if (vmx_handle_cpuid cpuid ctx).exit_vm then false else virtualized
  else virtualized

/-- `hypervisor::disable_core` (hypervisor.cpp): issue the magic cookie, then
`if (is_enabled()) KeBugCheckEx(...)`.  `none` is the bugcheck (the system
halts); `some v` returns with the CPU's virtualization flag `v`. -/
def disable_core (cpuid : CpuidOracle) (virtualized : Bool) : Option Bool :=
  let v := issue_magic_cpuid cpuid virtualized
  if is_hypervisor_present_model cpuid v then none
  else some v

/-- Option-valued map used to chain the per-core bodies dispatched by
`thread::dispatch_on_all_cores`: a `none` (bugcheck) on any core halts the
whole operation. -/
def mapOption (f : α → Option β) : List α → Option (List β)
  | [] => some []
  | a :: as =>
    match f a, mapOption f as with
    | some b, some bs => some (b :: bs)
    | _, _ => none

/-- `hypervisor::disable` (hypervisor.cpp): dispatch `disable_core` on every
logical processor.  The list holds each CPU's virtualization flag. -/
def hypervisor_disable (cpuid : CpuidOracle) (cores : List Bool) : Option (List Bool) :=
  mapOption (disable_core cpuid) cores

/-- `hypervisor::try_enable_core`: the per-CPU body of `enable`'s dispatch.
`ok` is whether `enable_core` succeeded (VMXON + VMLAUNCH + presence check);
the result is the CPU's virtualization flag afterwards (a failed core is left
non-virtualized: `launch_hypervisor`'s error path executes `VMXOFF`). -/
def try_enable_core (ok : Bool) : Bool := ok

/-- `hypervisor::enable` (hypervisor.cpp): dispatch a DPC to every CPU whose
body runs `try_enable_core` and, on failure, `InterlockedIncrement(&failures)`;
then test `failures` and, if nonzero, call `disable()` and throw.  Because
the dispatcher's busy-wait releases at DPC *dequeue* (before the routine
completes), only the increments of callbacks that happened to finish before
the call returned (`sched cpu = true`) are visible when `failures` is
tested; every callback still runs eventually, so core `i` ends virtualized
iff its `enable_core` succeeded (`core_ok[i]`).  Result: `none` when
`disable` bugchecked, otherwise `some (final per-core flags, succeeded)`
where `succeeded = false` models the throw. -/
def hypervisor_enable (cpuid : CpuidOracle) (core_ok : List Bool)
    (sched : Nat → Bool) : Option (List Bool × Bool) :=
  let final_states := core_ok.map try_enable_core
  let visible_failures :=
    ((List.range core_ok.length).filter
      (fun cpu => sched cpu && !core_ok.getD cpu true)).length
  if visible_failures ≠ 0 then
    match hypervisor_disable cpuid final_states with
    | none => none
    | some states' => some (states', false)
  else some (final_states, true)

/-! ## VMX control adjustment (`adjust_msr`, hypervisor.cpp) -/

/-- The two 32-bit halves of a `ULARGE_INTEGER` holding a VMX capability MSR:
`LowPart` = allowed-0 settings, `HighPart` = allowed-1 settings. -/
structure ULargeInteger where
  LowPart : Nat
  HighPart : Nat

/-- `adjust_msr` (hypervisor.cpp):
`result = (uint32_t)desired; result &= HighPart; result |= LowPart`. -/
def adjust_msr (control_value : ULargeInteger) (desired_value : Nat) : Nat :=
  let result := desired_value % 4294967296
  let result := result &&& control_value.HighPart
  result ||| control_value.LowPart

/-- The reference adjustment from the specification:
`adjust(msr, desired) = (desired | msr.allowed0) & msr.allowed1`. -/
def adjust_msr_spec (msr : ULargeInteger) (desired : Nat) : Nat :=
  ((desired % 4294967296) ||| msr.LowPart) &&& msr.HighPart

/-! ## Hook & watchpoint registry (`vmx::simple_ept_lookup`, ept.hpp) -/

/-- `physical_addr & ~0xFFFULL` on a 64-bit value: clear the low 12 bits. -/
def page_align (a : Nat) : Nat := a / 4096 * 4096

/-- The slice of `vmx::optimized_ept_hook` the lookup consults.
`base_address` is `strong_types::PhysicalAddress::raw()`. -/
structure OptimizedEptHook where
  base_address : Nat
  sequence : Nat
deriving DecidableEq

/-- The slice of `vmx::ept_code_watch_point` the lookup consults. -/
structure EptCodeWatchPoint where
  physical_base_address : Nat
  sequence : Nat
deriving DecidableEq

/-- `vmx::simple_ept_lookup`: the registered hooks and watchpoints, in array
order (`hooks_[0..hook_count_)`, `watchpoints_[0..watchpoint_count_)`). -/
structure SimpleEptLookup where
  hooks : List OptimizedEptHook
  watchpoints : List EptCodeWatchPoint

/-- `simple_ept_lookup::find_hook` (ept.hpp): align the query to its 4 KiB
page and linearly scan for the first hook whose base matches. -/
def find_hook (l : SimpleEptLookup) (physical_addr : Nat) : Option OptimizedEptHook :=
  let aligned_addr := page_align physical_addr
  l.hooks.find? (fun h => h.base_address == aligned_addr)

/-- `simple_ept_lookup::find_watchpoint` (ept.hpp). -/
def find_watchpoint (l : SimpleEptLookup) (physical_addr : Nat) : Option EptCodeWatchPoint :=
  let aligned_addr := page_align physical_addr
  l.watchpoints.find? (fun w => w.physical_base_address == aligned_addr)

/-! ## Cross-core dispatch (`thread::dispatch_on_all_cores`, thread.cpp) -/

/-- The CPU indices visited by `dispatch_on_all_cores`: forward
`0, 1, …, N-1` or, with `reverse_order`, `N-1, …, 1, 0`. -/
def dispatch_order (cpu_count : Nat) (reverse_order : Bool) : List Nat :=
  if reverse_order then (List.range cpu_count).reverse else List.range cpu_count

/-- What the caller of `thread::dispatch_on_all_cores` observes when the
call returns: the accumulated state effects of the callback invocations
that have *finished* by then, and the CPUs whose invocation is still
running or pending. -/
structure DispatchResult (σ : Type) where
  state : σ
  pending : List Nat

/-- `thread::dispatch_on_all_cores` via `dispatch_on_specific_cpu`
(thread.cpp): for each CPU in dispatch order, queue a DPC targeted at that
CPU (`KeSetTargetProcessorDpc` + `KeInsertQueueDpc`) and busy-wait on
`dpc.DpcData`.  Windows clears `DpcData` when the DPC is *dequeued* — before
the deferred routine executes — so the wait guarantees only that the
callback has started on the target CPU, not that it has completed.
`sched cpu = true` means CPU `cpu`'s routine happened to finish before the
overall call returned; `state` accumulates exactly those callbacks' effects
(in dispatch order), and `pending` lists the CPUs whose invocation is still
running or pending at return. -/
def dispatch_on_all_cores {σ : Type} (cpu_count : Nat) (reverse_order : Bool)
    (sched : Nat → Bool) (callback : Nat → σ → σ) (s : σ) : DispatchResult σ :=
  { state := ((dispatch_order cpu_count reverse_order).filter
        (fun cpu => sched cpu)).foldl (fun st cpu => callback cpu st) s
  , pending := (dispatch_order cpu_count reverse_order).filter (fun cpu => !sched cpu) }

/-! ## Guest event injection (`inject_interuption` / `inject_page_fault`) -/

/-- VM-entry interruption type `hardware_exception` (ia32 headers). -/
def hardware_exception : Nat := 3

/-- Exception vector `page_fault` = #PF (ia32 headers). -/
def page_fault_vector : Nat := 14

/-- The VMCS event-injection state the injection helpers write, plus CR2:
`interruption_information` is `VMCS_CTRL_VMENTRY_INTERRUPTION_INFORMATION_FIELD`
and `exception_error_code` is `VMCS_CTRL_VMENTRY_EXCEPTION_ERROR_CODE`. -/
structure VmEntryInjection where
  interruption_information : Nat
  exception_error_code : Nat
  cr2 : Nat
deriving DecidableEq

/-- The `vmentry_interrupt_information` word assembled by
`inject_interuption`: vector in bits 0-7, interruption type in bits 8-10,
deliver-error-code in bit 11, valid in bit 31. -/
def interrupt_info_flags (type vector : Nat) (deliver_code : Bool) : Nat :=
  vector ||| (type <<< 8) ||| (if deliver_code then 2048 else 0) ||| 2147483648

/-- `inject_interuption` (hypervisor.cpp): write the assembled interruption
word to `VMCS_CTRL_VMENTRY_INTERRUPTION_INFORMATION_FIELD`; then, when
`deliver_code` is set, the source writes the error code to the *same*
interruption-information field again (it repeats
`VMCS_CTRL_VMENTRY_INTERRUPTION_INFORMATION_FIELD` where the re-injection
path at the exception handler correctly uses
`VMCS_CTRL_VMENTRY_EXCEPTION_ERROR_CODE`), overwriting the word it just
wrote. -/
def inject_interuption (type vector : Nat) (deliver_code : Bool)
    (error_code : Nat) (vmcs : VmEntryInjection) : VmEntryInjection :=
  let vmcs' := { vmcs with
    interruption_information := interrupt_info_flags type vector deliver_code }
  if deliver_code then
    { vmcs' with interruption_information := error_code }
  else vmcs'

/-- `inject_page_fault` (hypervisor.cpp): `__writecr2(address)`, then inject
a hardware-exception #PF with error code 0 and `deliver_code` set. -/
def inject_page_fault (page_fault_address : Nat) (vmcs : VmEntryInjection) :
    VmEntryInjection :=
  inject_interuption hardware_exception page_fault_vector true 0
    { vmcs with cr2 := page_fault_address }

/-- A VM-entry event is actually delivered to the guest iff the valid bit
(bit 31) of the interruption-information field is set when the guest is
resumed. -/
def injection_valid (vmcs : VmEntryInjection) : Bool :=
  vmcs.interruption_information.testBit 31

/-! ## Guest instruction-byte reads (`read_data_or_page_fault`, hypervisor.cpp) -/

/-- The host services `read_data_or_page_fault` relies on:
`v2p` is `memory::get_physical_address` (0/`none` = unmapped) and `read_ok`
is the success of `memory::read_physical_memory(dst, pa, len)`. -/
structure HostEnv where
  v2p : Nat → Option Nat
  read_ok : Nat → Nat → Bool

/-- Outcome of the byte-read loop: `ok` = all bytes copied (returns `true`),
`page_fault cr2` = `inject_page_fault(cr2)` was called and `false` returned
(its actual VMCS effect is modelled by the `VmEntryInjection` state),
`fail` = `read_physical_memory` failed and `false` returned (no injection
attempt). -/
inductive ReadOutcome where
  | ok
  | page_fault (cr2 : Nat)
  | fail
deriving DecidableEq

/-- Observable trace of the loop: its outcome, the guest virtual addresses
passed to `get_physical_address` (`visited`), and the physical `(addr, len)`
chunks actually handed to `read_physical_memory` (`derefs`). -/
structure ReadTrace where
  outcome : ReadOutcome
  visited : List Nat
  derefs : List (Nat × Nat)
deriving DecidableEq

/-- `read_data_or_page_fault` (hypervisor.cpp): read `len` guest bytes at
virtual address `base` in page-bounded chunks.  Each iteration clamps the
chunk at the next page boundary, translates the chunk's start address, and
either calls `inject_page_fault` on that address (translation failed),
aborts (physical read failed), or continues with the next chunk.  The
second component is the VM-entry injection state after the call. -/
def read_data_or_page_fault (env : HostEnv) (base len : Nat)
    (vmcs : VmEntryInjection) : ReadTrace × VmEntryInjection :=
  if len = 0 then (⟨.ok, [], []⟩, vmcs)
  else
    match env.v2p base with
    | none => (⟨.page_fault base, [base], []⟩, inject_page_fault base vmcs)
    | some physical_base =>
      if env.read_ok physical_base (min len (4096 - base % 4096)) then
        let rest := read_data_or_page_fault env
          (base + min len (4096 - base % 4096))
          (len - min len (4096 - base % 4096)) vmcs
        (⟨rest.1.outcome, base :: rest.1.visited,
          (physical_base, min len (4096 - base % 4096)) :: rest.1.derefs⟩, rest.2)
      else (⟨.fail, [base], [(physical_base, min len (4096 - base % 4096))]⟩, vmcs)
termination_by len
decreasing_by
  have h4096 : base % 4096 < 4096 := Nat.mod_lt _ (by norm_num)
  omega

/-! ## EPT memory hooks (split view) -/

/-- The permission/frame slice of a `vmx::pml1` (EPT PTE): read, write and
execute permissions plus the mapped 4 KiB frame's physical base. -/
structure Pml1Entry where
  read_access : Bool
  write_access : Bool
  execute_access : Bool
  page_frame : Nat
deriving DecidableEq

/-- The split-view slice of `vmx::ept_hook` (ept.hpp lines 521-564):
the fake page contents and the two prepared PT entries. -/
structure EptHookView where
  fake_page : Nat → Nat
  execute_entry : Pml1Entry
  readwrite_entry : Pml1Entry

/-- Modelled from the spec: the fake-page construction of
`vmx::ept::install_page_hook` (the `ept.cpp` implementation file is not part
of the repository snapshot; only its declarations in `ept.hpp` are).  The
fake execute-view page holds the original page contents with the patch bytes
overlaid at the intra-page offset. -/
def make_fake_page (original : Nat → Nat) (patch : List Nat) (off : Nat) : Nat → Nat :=
  fun i => if off ≤ i ∧ i < off + patch.length then patch.getD (i - off) 0 else original i

/-- Modelled from the spec: `vmx::ept::install_page_hook` builds, for the
hooked page at physical base `orig_pa`, an execute-view PT entry pointing at
the freshly allocated fake page (physical base `fake_pa`) with X-only
permissions, and an rw-view PT entry pointing at the original frame with
RW-only permissions (spec §3 "Hook", §4.C step 3-4; struct doc in ept.hpp). -/
def install_page_hook (orig_pa fake_pa : Nat) (original : Nat → Nat)
    (patch : List Nat) (off : Nat) : EptHookView :=
  { fake_page := make_fake_page original patch off
  , execute_entry :=
      { read_access := false, write_access := false, execute_access := true,
        page_frame := fake_pa }
  , readwrite_entry :=
      { read_access := true, write_access := true, execute_access := false,
        page_frame := orig_pa } }

/-- Physical memory: frame base ↦ intra-page offset ↦ byte. -/
def PhysMem := Nat → Nat → Nat

/-- A guest data read of byte `i` of the hooked page: the violation handler
installs the rw-view entry for read/write accesses (spec §4.D decision
table), so the byte is served from the frame the rw-view entry maps. -/
def guest_read (mem : PhysMem) (h : EptHookView) (i : Nat) : Nat :=
  mem h.readwrite_entry.page_frame i

/-- A guest instruction fetch of byte `i` of the hooked page: the violation
handler installs the execute-view entry for execute accesses, so the byte is
served from the frame the execute-view entry maps. -/
def guest_fetch (mem : PhysMem) (h : EptHookView) (i : Nat) : Nat :=
  mem h.execute_entry.page_frame i

/-! ## Hook installation entry point (`hypervisor::install_ept_hook`) -/

/-- Abstract EPT state: the list of installed hooks `(target vaddr, len)`. -/
structure EptModelState where
  hooks : List (Nat × Nat)
deriving DecidableEq

/-- Modelled from the spec: the length validation of `vmx::ept::install_hook`
(the `ept.cpp` implementation file is not part of the repository snapshot).
A hook whose length exceeds the bytes remaining in the target's 4 KiB page —
`len > 4096 − (target_vaddr & 0xFFF)` — is rejected by throwing, before any
EPT mutation; otherwise the hook is installed. -/
def ept_install_hook (st : EptModelState) (target_vaddr len : Nat) :
    Option EptModelState :=
  if 4096 - target_vaddr % 4096 < len then none
  else some { hooks := (target_vaddr, len) :: st.hooks }

/-- Hypervisor state seen by `install_ept_hook`: the EPT plus the number of
cross-core TLB invalidations performed (`invalidate_cores` calls). -/
structure HvState where
  ept : EptModelState
  invalidation_count : Nat
deriving DecidableEq

/-- `hypervisor::install_ept_hook` (hypervisor.cpp): call
`ept_->install_hook(...)` under `try`/`catch`, returning `false` on any
exception; only on success fall through to `invalidate_cores()` and return
`true`. -/
def install_ept_hook (st : HvState) (target_vaddr len : Nat) : Bool × HvState :=
  match ept_install_hook st.ept target_vaddr len with
  | none => (false, st)
  | some e => (true, { ept := e, invalidation_count := st.invalidation_count + 1 })

/-! ## Concrete fixtures used to instantiate the theorems -/

/-- A bare machine whose CPUID answers all-zero on every leaf. -/
def flat_oracle : CpuidOracle := fun _ _ => { eax := 0, ebx := 0, ecx := 0, edx := 0 }

/-- A guest context issuing CPUID with `RAX = 1` from user mode. -/
def ctxLeaf1 : GuestContext :=
  { regs := { rax := 1, rbx := 0, rcx := 0, rdx := 0 },
    cs_selector := 0x33, exit_vm := false, increment_rip := true,
    syscall_hooks := false }

/-- A guest context issuing CPUID with `RAX = 0x100000001`, whose low 32 bits
(the architectural `EAX`) equal 1. -/
def ctxHighRax : GuestContext :=
  { regs := { rax := 4294967297, rbx := 0, rcx := 0, rdx := 0 },
    cs_selector := 0x10, exit_vm := false, increment_rip := true,
    syscall_hooks := false }

/-- A guest context issuing the syscall-hook cookie from user mode
(CS selector `0x33`, RPL = 3). -/
def ctxUserCookie : GuestContext :=
  { regs := { rax := 0x41414141, rbx := 0, rcx := 0x42424243, rdx := 0 },
    cs_selector := 0x33, exit_vm := false, increment_rip := true,
    syscall_hooks := false }

/-- A host memory where guest pages below `0x1000` are the only mapped ones. -/
def envW : HostEnv :=
  { v2p := fun b => if b < 4096 then some (b + 65536) else none,
    read_ok := fun _ _ => true }

/-- A 4 KiB page full of `0x90` (NOP) bytes. -/
def origW : Nat → Nat := fun _ => 144

/-- Physical memory for the hook fixture: frame `0x2000` holds the fake page
(`origW` patched with `CC CC` at offset 0), everything else reads `0x90`. -/
def memW : PhysMem :=
  fun pa i => if pa = 8192 then make_fake_page origW [204, 204] 0 i else 144

/-- A registry with one hook and one watchpoint, both on page base `0x1000`. -/
def lookupW : SimpleEptLookup :=
  { hooks := [{ base_address := 4096, sequence := 7 }],
    watchpoints := [{ physical_base_address := 4096, sequence := 9 }] }

/-! ## Theorems -/

/-- C9 counterexample: for the MSR value with allowed-0 = 1 and allowed-1 = 0
(a bit required to be 1 by `allowed0` but forbidden by `allowed1`) and
desired value 0, `adjust_msr` yields 1 whereas the specification's reference
`adjust` yields 0 — so the two disagree on this input, refuting the claim as
stated for *every* MSR value. -/
theorem c9_counterexample :
    adjust_msr { LowPart := 1, HighPart := 0 } 0 = 1 ∧
    adjust_msr_spec { LowPart := 1, HighPart := 0 } 0 = 0 := by
  decide

/-- C9 (amended): for every VMX-capability MSR value whose allowed-0 half is
contained in its allowed-1 half (`allowed0 & allowed1 = allowed0`, the
architectural consistency constraint every real VMX capability MSR
satisfies) and every desired control value, `adjust_msr` equals the
reference `adjust(msr, desired) = (desired | allowed0) & allowed1`. -/
theorem c9_adjust_msr_matches_spec (msr : ULargeInteger) (desired : Nat)
    (h : msr.LowPart &&& msr.HighPart = msr.LowPart) :
    adjust_msr msr desired = adjust_msr_spec msr desired := by
  apply Nat.eq_of_testBit_eq
  intro i
  have hi := congrArg (fun n => n.testBit i) h
  simp only [Nat.testBit_land] at hi
  simp only [adjust_msr, adjust_msr_spec, Nat.testBit_lor, Nat.testBit_land]
  cases hd : (desired % 4294967296).testBit i <;>
    cases hL : msr.LowPart.testBit i <;>
      cases hH : msr.HighPart.testBit i <;> simp_all

/-- C9 witness: the amended equation at the MSR value `low = 1, high = 3`
and desired value `6`. -/
theorem c9_witness :
    ({ LowPart := 1, HighPart := 3 } : ULargeInteger).LowPart &&&
        ({ LowPart := 1, HighPart := 3 } : ULargeInteger).HighPart =
      ({ LowPart := 1, HighPart := 3 } : ULargeInteger).LowPart ∧
    adjust_msr { LowPart := 1, HighPart := 3 } 6 =
      adjust_msr_spec { LowPart := 1, HighPart := 3 } 6 :=
  ⟨by decide, c9_adjust_msr_matches_spec { LowPart := 1, HighPart := 3 } 6 (by decide)⟩

/-- C10: the registry lookups ignore the low 12 bits of the queried physical
address — for any registry, page-aligned base and offset `o < 4096`,
`find_hook (base + o)` and `find_watchpoint (base + o)` return exactly what
the lookups return at `base` itself. -/
theorem c10_lookup_is_page_keyed (l : SimpleEptLookup) (base_pa o : Nat)
    (hbase : base_pa % 4096 = 0) (ho : o < 4096) :
    find_hook l (base_pa + o) = find_hook l base_pa ∧
    find_watchpoint l (base_pa + o) = find_watchpoint l base_pa := by
  have halign : page_align (base_pa + o) = page_align base_pa := by
    unfold page_align
    omega
  exact ⟨by simp only [find_hook, halign], by simp only [find_watchpoint, halign]⟩

/-- C10 witness: a registry holding one hook and one watchpoint on the page
with base `0x1000`, queried at offset 5. -/
theorem c10_witness :
    (4096 : Nat) % 4096 = 0 ∧ (5 : Nat) < 4096 ∧
    (find_hook lookupW (4096 + 5) = find_hook lookupW 4096 ∧
      find_watchpoint lookupW (4096 + 5) = find_watchpoint lookupW 4096) :=
  ⟨by decide, by decide, c10_lookup_is_page_keyed lookupW 4096 5 (by decide) (by decide)⟩

/-- C5: an `install_hook` request whose length crosses the target's 4 KiB
page boundary (`len > 4096 − (target_vaddr & 0xFFF)`) makes
`hypervisor::install_ept_hook` return `false` with the state unchanged — no
EPT mutation and no cross-core invalidation; and in general a `false` return
leaves the state untouched, so `invalidate_cores` is reached only on
success. -/
theorem c5_cross_page_hook_rejected (st : HvState) (target_vaddr len : Nat)
    (hcross : 4096 - target_vaddr % 4096 < len) :
    install_ept_hook st target_vaddr len = (false, st) ∧
    (∀ v l, (install_ept_hook st v l).1 = false → (install_ept_hook st v l).2 = st) := by
  constructor
  · simp [install_ept_hook, ept_install_hook, hcross]
  · intro v l
    unfold install_ept_hook
    cases ept_install_hook st.ept v l <;> simp

/-- C5 witness: the empty hypervisor state and a 3-byte hook at intra-page
offset `0xFFF` (only one byte left in the page). -/
theorem c5_witness :
    4096 - (4095 : Nat) % 4096 < 3 ∧
    install_ept_hook { ept := { hooks := [] }, invalidation_count := 0 } 4095 3 =
      (false, { ept := { hooks := [] }, invalidation_count := 0 }) :=
  ⟨by decide,
    (c5_cross_page_hook_rejected { ept := { hooks := [] }, invalidation_count := 0 }
      4095 3 (by decide)).1⟩

/-- C1: for a hook installed on the page at physical base `orig_pa` with
patch `patch` at offset `off` (fake frame `fake_pa`), a guest read of any
byte of the page returns the original byte, a guest instruction fetch at
each hook offset returns the corresponding patch byte, the execute-view PT
entry maps the fake page with execute-only permissions, the rw-view PT entry
maps the original frame with read/write-only permissions, and the fake page
holds the original contents with the patch overlaid at the offset. -/
theorem c1_hook_split_view (orig_pa fake_pa : Nat) (original : Nat → Nat)
    (patch : List Nat) (off : Nat) (mem : PhysMem)
    (_hfit : off + patch.length ≤ 4096)
    (horig : ∀ i, mem orig_pa i = original i)
    (hfake : ∀ i, mem fake_pa i =
      (install_page_hook orig_pa fake_pa original patch off).fake_page i) :
    (∀ i, i < 4096 →
      guest_read mem (install_page_hook orig_pa fake_pa original patch off) i
        = original i) ∧
    (∀ j, j < patch.length →
      guest_fetch mem (install_page_hook orig_pa fake_pa original patch off) (off + j)
        = patch.getD j 0) ∧
    (install_page_hook orig_pa fake_pa original patch off).execute_entry =
      { read_access := false, write_access := false, execute_access := true,
        page_frame := fake_pa } ∧
    (install_page_hook orig_pa fake_pa original patch off).readwrite_entry =
      { read_access := true, write_access := true, execute_access := false,
        page_frame := orig_pa } ∧
    (∀ i, (install_page_hook orig_pa fake_pa original patch off).fake_page i =
      if off ≤ i ∧ i < off + patch.length then patch.getD (i - off) 0 else original i) := by
  refine ⟨?_, ?_, rfl, rfl, fun i => rfl⟩
  · intro i _
    simpa [guest_read, install_page_hook] using horig i
  · intro j hj
    have hb := hfake (off + j)
    simp only [guest_fetch, install_page_hook] at hb ⊢
    rw [hb]
    unfold make_fake_page
    rw [if_pos ⟨Nat.le_add_right off j, by omega⟩, Nat.add_sub_cancel_left]

/-- C1 witness: a NOP page at frame `0x1000` hooked with `CC CC` at offset 0
(fake frame `0x2000`): reading byte 1 yields `0x90`, fetching byte 0 yields
`0xCC`. -/
theorem c1_witness :
    guest_read memW (install_page_hook 4096 8192 origW [204, 204] 0) 1 = 144 ∧
    guest_fetch memW (install_page_hook 4096 8192 origW [204, 204] 0) (0 + 0) = 204 := by
  have h := c1_hook_split_view 4096 8192 origW [204, 204] 0 memW
    (by decide) (fun i => rfl) (fun i => rfl)
  exact ⟨h.1 1 (by decide), h.2.1 0 (by decide)⟩

/-- The low 32 bits survive the sign-extending write-back. -/
theorem sext32_low (x : Nat) : sext32 x % 4294967296 = x % 4294967296 := by
  simp only [sext32]
  split <;> omega

/-- A 32-bit value or-ed with the hypervisor-present bit stays 32-bit. -/
theorem low32_lor_present (a : Nat) :
    ((a % 4294967296) ||| HYPERV_HYPERVISOR_PRESENT_BIT) % 4294967296
      = (a % 4294967296) ||| HYPERV_HYPERVISOR_PRESENT_BIT := by
  apply Nat.mod_eq_of_lt
  have h1 : a % 4294967296 < 2 ^ 32 := Nat.mod_lt _ (by norm_num)
  have h2 : HYPERV_HYPERVISOR_PRESENT_BIT < 2 ^ 32 := by decide
  calc (a % 4294967296) ||| HYPERV_HYPERVISOR_PRESENT_BIT < 2 ^ 32 :=
        Nat.or_lt_two_pow h1 h2
    _ = 4294967296 := by norm_num

/-- C7: the two reserved CPUID cookies are honoured only from CPL 0.  From
any other privilege level (guest CS selector with nonzero RPL) the handler
falls through to ordinary CPUID emulation with no side effect — `exit_vm`
and the syscall-hook state are untouched; conversely, any execution of the
handler that changes the syscall-hook state or sets `exit_vm` must have run
at CPL 0; and from CPL 0 the `0x42424243` cookie enables syscall hooking
for the current CPU while the `0x42424242` cookie requests graceful VM
exit, neither touching the guest registers. -/
theorem c7_cookies_require_cpl0 (cpuid : CpuidOracle) (ctx : GuestContext) :
    (¬ is_system ctx = true →
      vmx_handle_cpuid cpuid ctx = cpuid_emulate cpuid ctx ∧
      (vmx_handle_cpuid cpuid ctx).exit_vm = ctx.exit_vm ∧
      (vmx_handle_cpuid cpuid ctx).syscall_hooks = ctx.syscall_hooks) ∧
    ((vmx_handle_cpuid cpuid ctx).syscall_hooks ≠ ctx.syscall_hooks →
      is_system ctx = true) ∧
    ((vmx_handle_cpuid cpuid ctx).exit_vm ≠ ctx.exit_vm →
      is_system ctx = true) ∧
    (is_system ctx = true → ctx.regs.rax = 0x41414141 → ctx.regs.rcx = 0x42424243 →
      vmx_handle_cpuid cpuid ctx = { ctx with syscall_hooks := true }) ∧
    (is_system ctx = true → ctx.regs.rax = 0x41414141 → ctx.regs.rcx = 0x42424242 →
      vmx_handle_cpuid cpuid ctx = { ctx with exit_vm := true }) := by
  have hfall : ¬ is_system ctx = true →
      vmx_handle_cpuid cpuid ctx = cpuid_emulate cpuid ctx ∧
      (vmx_handle_cpuid cpuid ctx).exit_vm = ctx.exit_vm ∧
      (vmx_handle_cpuid cpuid ctx).syscall_hooks = ctx.syscall_hooks := by
    intro hs
    have hs' : is_system ctx = false := by
      cases h : is_system ctx
      · rfl
      · exact absurd h hs
    constructor
    · simp [vmx_handle_cpuid, hs']
    · simp [vmx_handle_cpuid, cpuid_emulate, hs']
  refine ⟨hfall, ?_, ?_, ?_, ?_⟩
  · intro hchanged
    by_contra hs
    exact hchanged (hfall hs).2.2
  · intro hchanged
    by_contra hs
    exact hchanged (hfall hs).2.1
  · intro hs h1 h2
    simp [vmx_handle_cpuid, h1, h2, hs]
  · intro hs h1 h2
    simp [vmx_handle_cpuid, h1, h2, hs]

/-- C7 witness: the syscall-hook cookie issued with a user-mode CS selector
(`0x33`, RPL 3) falls through to plain emulation. -/
theorem c7_witness :
    vmx_handle_cpuid flat_oracle ctxUserCookie = cpuid_emulate flat_oracle ctxUserCookie ∧
    (vmx_handle_cpuid flat_oracle ctxUserCookie).exit_vm = ctxUserCookie.exit_vm ∧
    (vmx_handle_cpuid flat_oracle ctxUserCookie).syscall_hooks =
      ctxUserCookie.syscall_hooks :=
  (c7_cookies_require_cpl0 flat_oracle ctxUserCookie).1 (by decide)

/-- C2 counterexample: with `RAX = 0x100000001` the architectural leaf
(`EAX`, the low 32 bits) is 1, yet the dispatcher's 64-bit comparison
`Rax == 1` fails, so the guest does *not* receive ECX with bit 31 set — on
the all-zero bare oracle the returned ECX is 0.  This refutes the claim's
"if the requested leaf (EAX) is 1" reading. -/
theorem c2_counterexample :
    ctxHighRax.regs.rax % 4294967296 = 1 ∧
    (vmx_handle_cpuid flat_oracle ctxHighRax).regs.rcx = 0 ∧
    Nat.testBit ((vmx_handle_cpuid flat_oracle ctxHighRax).regs.rcx) 31 = false := by
  refine ⟨by decide, ?_, ?_⟩ <;> decide

/-- C2 (amended): the special CPUID leaves are keyed on the full 64-bit
`RAX`.  If `RAX = 1` the guest receives the bare-metal result for
`(1, ECX)` with ECX bit 31 additionally set; if `RAX = 0x40000001` the guest
receives EAX = the `'momo'` vendor signature (EBX/ECX/EDX bare-metal); for
any other `RAX` that is not an accepted reserved cookie, all four guest
E-registers equal the bare-metal CPUID result for the truncated
`(EAX, ECX)` pair. -/
theorem c2_cpuid_leaves (cpuid : CpuidOracle) (ctx : GuestContext) :
    (ctx.regs.rax = 1 →
      (vmx_handle_cpuid cpuid ctx).regs.rax % 4294967296
          = (cpuid 1 (ctx.regs.rcx % 4294967296)).eax % 4294967296 ∧
      (vmx_handle_cpuid cpuid ctx).regs.rbx % 4294967296
          = (cpuid 1 (ctx.regs.rcx % 4294967296)).ebx % 4294967296 ∧
      (vmx_handle_cpuid cpuid ctx).regs.rcx % 4294967296
          = ((cpuid 1 (ctx.regs.rcx % 4294967296)).ecx % 4294967296)
              ||| HYPERV_HYPERVISOR_PRESENT_BIT ∧
      (vmx_handle_cpuid cpuid ctx).regs.rdx % 4294967296
          = (cpuid 1 (ctx.regs.rcx % 4294967296)).edx % 4294967296) ∧
    (ctx.regs.rax = HYPERV_CPUID_INTERFACE →
      (vmx_handle_cpuid cpuid ctx).regs.rax % 4294967296 = momo ∧
      (vmx_handle_cpuid cpuid ctx).regs.rbx % 4294967296
          = (cpuid (HYPERV_CPUID_INTERFACE % 4294967296) (ctx.regs.rcx % 4294967296)).ebx
              % 4294967296 ∧
      (vmx_handle_cpuid cpuid ctx).regs.rcx % 4294967296
          = (cpuid (HYPERV_CPUID_INTERFACE % 4294967296) (ctx.regs.rcx % 4294967296)).ecx
              % 4294967296 ∧
      (vmx_handle_cpuid cpuid ctx).regs.rdx % 4294967296
          = (cpuid (HYPERV_CPUID_INTERFACE % 4294967296) (ctx.regs.rcx % 4294967296)).edx
              % 4294967296) ∧
    (ctx.regs.rax ≠ 1 → ctx.regs.rax ≠ HYPERV_CPUID_INTERFACE →
      ¬ (ctx.regs.rax = 0x41414141 ∧
          (ctx.regs.rcx = 0x42424242 ∨ ctx.regs.rcx = 0x42424243) ∧
          is_system ctx = true) →
      (vmx_handle_cpuid cpuid ctx).regs.rax % 4294967296
          = (cpuid (ctx.regs.rax % 4294967296) (ctx.regs.rcx % 4294967296)).eax
              % 4294967296 ∧
      (vmx_handle_cpuid cpuid ctx).regs.rbx % 4294967296
          = (cpuid (ctx.regs.rax % 4294967296) (ctx.regs.rcx % 4294967296)).ebx
              % 4294967296 ∧
      (vmx_handle_cpuid cpuid ctx).regs.rcx % 4294967296
          = (cpuid (ctx.regs.rax % 4294967296) (ctx.regs.rcx % 4294967296)).ecx
              % 4294967296 ∧
      (vmx_handle_cpuid cpuid ctx).regs.rdx % 4294967296
          = (cpuid (ctx.regs.rax % 4294967296) (ctx.regs.rcx % 4294967296)).edx
              % 4294967296) := by
  refine ⟨?_, ?_, ?_⟩
  · intro h1
    have hn : (1 : Nat) % 4294967296 = 1 := by decide
    simp only [vmx_handle_cpuid, cpuid_emulate, h1]
    norm_num [sext32_low, low32_lor_present, hn]
  · intro h1
    simp only [vmx_handle_cpuid, cpuid_emulate, h1, HYPERV_CPUID_INTERFACE]
    norm_num [sext32_low, momo]
  · intro h1 h2 hcookie
    have hc1 : (ctx.regs.rax == 0x41414141 && ctx.regs.rcx == 0x42424243 &&
        is_system ctx) = false := by
      by_contra hne
      rw [Bool.not_eq_false, Bool.and_eq_true, Bool.and_eq_true] at hne
      rw [beq_iff_eq] at hne
      exact hcookie ⟨hne.1.1, Or.inr (by exact_mod_cast beq_iff_eq.mp hne.1.2), hne.2⟩
    have hc2 : (ctx.regs.rax == 0x41414141 && ctx.regs.rcx == 0x42424242 &&
        is_system ctx) = false := by
      by_contra hne
      rw [Bool.not_eq_false, Bool.and_eq_true, Bool.and_eq_true] at hne
      rw [beq_iff_eq] at hne
      exact hcookie ⟨hne.1.1, Or.inl (by exact_mod_cast beq_iff_eq.mp hne.1.2), hne.2⟩
    have h2' : ctx.regs.rax ≠ 1073741825 := by
      simpa [HYPERV_CPUID_INTERFACE] using h2
    simp only [vmx_handle_cpuid, cpuid_emulate, hc1, hc2, Bool.false_eq_true, if_false]
    simp [h1, h2', sext32_low, HYPERV_CPUID_INTERFACE]

/-- C2 witness: the amended leaf-1 behaviour at `RAX = 1` on the all-zero
bare oracle, issued from user mode: the guest ECX becomes exactly the
hypervisor-present bit. -/
theorem c2_witness :
    (vmx_handle_cpuid flat_oracle ctxLeaf1).regs.rcx % 4294967296
        = ((flat_oracle 1 (ctxLeaf1.regs.rcx % 4294967296)).ecx % 4294967296)
            ||| HYPERV_HYPERVISOR_PRESENT_BIT :=
  ((c2_cpuid_leaves flat_oracle ctxLeaf1).1 rfl).2.2.1

/-- C6 (code bug): the dispatch does visit each CPU exactly once — here CPU
0 of a one-CPU system, `(dispatch_order 1 false).count 0 = 1` — but the
claimed completion barrier is absent from the code: the busy-wait
`while (dpc.DpcData != nullptr)` releases when the DPC is dequeued, before
the deferred routine executes, so with the routine not yet finished at
dequeue the call returns while that invocation is still running
(`pending = [0]`) and none of its effects are visible (the completion
counter is still 0), contradicting the claim that no callback invocation is
still running or pending when the call returns.  The code contradicts its
own comment ("wait for DPC completion"). -/
theorem c6_dispatch_lacks_completion_barrier :
    (dispatch_order 1 false).count 0 = 1 ∧
    (dispatch_on_all_cores 1 false (fun _ => false)
        (fun _ completed => completed + 1) 0).pending = [0] ∧
    (dispatch_on_all_cores 1 false (fun _ => false)
        (fun _ completed => completed + 1) 0).state = 0 := by
  decide

/-- The magic disable cookie always leaves the current CPU de-virtualized:
on a virtualized CPU the kernel-mode CPUID traps, the dispatcher honours the
CPL-0 cookie by setting `exit_vm`, and `vm_exit_handler` executes `VMXOFF`;
on a bare CPU nothing was virtualized to begin with. -/
theorem issue_magic_cpuid_off (cpuid : CpuidOracle) (v : Bool) :
    issue_magic_cpuid cpuid v = false := by
  cases v <;> rfl

/-- If `disable_core` returns (no bugcheck), the CPU is de-virtualized and
the hypervisor is no longer detected on it. -/
theorem disable_core_some (cpuid : CpuidOracle) (v v' : Bool)
    (h : disable_core cpuid v = some v') :
    v' = false ∧ is_hypervisor_present_model cpuid v' = false := by
  unfold disable_core at h
  rw [issue_magic_cpuid_off] at h
  by_cases hp : is_hypervisor_present_model cpuid false = true
  · rw [if_pos hp] at h
    cases h
  · rw [if_neg hp] at h
    cases h
    exact ⟨rfl, by simpa using hp⟩

/-- Chaining per-core bodies: the results of a successful `mapOption` come
element-wise from successful applications of `f`. -/
theorem mapOption_some_spec {α β : Type} (f : α → Option β) :
    ∀ (l : List α) (out : List β), mapOption f l = some out →
      out.length = l.length ∧ ∀ b ∈ out, ∃ a, a ∈ l ∧ f a = some b := by
  intro l
  induction l with
  | nil =>
    intro out h
    simp only [mapOption] at h
    cases h
    simp
  | cons a as ih =>
    intro out h
    simp only [mapOption] at h
    cases hfa : f a with
    | none => rw [hfa] at h; simp at h
    | some b =>
      rw [hfa] at h
      cases hrest : mapOption f as with
      | none => rw [hrest] at h; simp at h
      | some bs =>
        rw [hrest] at h
        simp only [Option.some.injEq] at h
        subst h
        obtain ⟨hlen, hmem⟩ := ih bs hrest
        refine ⟨by simp [hlen], ?_⟩
        intro b' hb'
        rcases List.mem_cons.mp hb' with hb' | hb'
        · exact ⟨a, List.mem_cons_self a as, hb' ▸ hfa⟩
        · obtain ⟨a', ha', hfa'⟩ := hmem b' hb'
          exact ⟨a', List.mem_cons_of_mem a ha', hfa'⟩

/-- C4: `disable` issues the magic CPUID cookie via `disable_core` on every
logical processor.  If afterwards the hypervisor is still detected present
on a CPU, `disable_core` bugchecks (`none`) instead of returning; whenever
`disable_core` returns normally the current CPU is de-virtualized, and
whenever `disable` returns normally every CPU is de-virtualized. -/
theorem c4_disable_halts_or_devirtualizes (cpuid : CpuidOracle)
    (cores out : List Bool) :
    (∀ v v', disable_core cpuid v = some v' →
      v' = false ∧ is_hypervisor_present_model cpuid v' = false) ∧
    (∀ v, is_hypervisor_present_model cpuid (issue_magic_cpuid cpuid v) = true →
      disable_core cpuid v = none) ∧
    (hypervisor_disable cpuid cores = some out →
      out.length = cores.length ∧ ∀ v ∈ out, v = false) := by
  refine ⟨fun v v' h => disable_core_some cpuid v v' h, ?_, ?_⟩
  · intro v hp
    simp [disable_core, hp]
  · intro h
    obtain ⟨hlen, hmem⟩ := mapOption_some_spec (disable_core cpuid) cores out h
    refine ⟨hlen, ?_⟩
    intro b hb
    obtain ⟨a, _, hfa⟩ := hmem b hb
    exact (disable_core_some cpuid a b hfa).1

/-- C4 witness: one virtualized CPU on the all-zero bare machine —
`disable_core` returns with the CPU de-virtualized, and `disable` over the
one-CPU system returns the all-off state. -/
theorem c4_witness :
    disable_core flat_oracle true = some false ∧
    (false = false ∧ is_hypervisor_present_model flat_oracle false = false) ∧
    ([false].length = [true].length ∧ ∀ v ∈ [false], v = false) :=
  ⟨by decide,
    (c4_disable_halts_or_devirtualizes flat_oracle [] []).1 true false (by decide),
    (c4_disable_halts_or_devirtualizes flat_oracle [true] [false]).2.2 (by decide)⟩

/-- C3 (code bug): two CPUs, CPU 0's `enable_core` succeeds, CPU 1's fails,
but CPU 1's DPC has not completed when the dispatcher's busy-wait releases
(the wait on `dpc.DpcData` releases at dequeue, before the routine runs), so
its `InterlockedIncrement(&failures)` lands after `enable` tests the
counter: `enable` reads `failures = 0`, skips `disable()`, and reports
success — yet the system ends with CPU 0 virtualized and CPU 1 not (the
final flag list holds one `true` and one `false`): neither every CPU
virtualized nor none, and no failure was reported, contradicting the
claim's disable-everywhere-and-throw atomicity. -/
theorem c3_late_failure_escapes_enable :
    hypervisor_enable flat_oracle [true, false] (fun cpu => cpu == 0)
      = some ([true, false], true) ∧
    [true, false].count true = 1 ∧
    [true, false].count false = 1 := by
  decide

/-- C8 (code bug): three bytes read at guest RIP `0xFFE` with the second
page (`0x1000`) unmapped.  The loop dereferences only the translated first
chunk (`derefs = [(0x10FFE, 2)]`, never the unbacked address), calls
`inject_page_fault(0x1000)` and reports failure — but the injection is
cancelled by the code's own slip: `inject_interuption`'s deliver-code path
overwrites the interruption-information field with the error code 0,
clearing the valid bit, so no #PF is delivered to the guest
(`injection_valid = false`); only CR2 is left set to the unresolvable
address.  The claim (and the spec) require a synthesized #PF to be injected
into the guest. -/
theorem c8_pf_injection_cancelled :
    (read_data_or_page_fault envW 4094 3 ⟨0, 0, 0⟩).1.outcome
      = .page_fault 4096 ∧
    (read_data_or_page_fault envW 4094 3 ⟨0, 0, 0⟩).1.derefs = [(69630, 2)] ∧
    (read_data_or_page_fault envW 4094 3 ⟨0, 0, 0⟩).2.cr2 = 4096 ∧
    (read_data_or_page_fault envW 4094 3 ⟨0, 0, 0⟩).2.interruption_information
      = 0 ∧
    injection_valid (read_data_or_page_fault envW 4094 3 ⟨0, 0, 0⟩).2 = false := by
  have hstep : read_data_or_page_fault envW 4094 3 ⟨0, 0, 0⟩
      = (⟨.page_fault 4096, [4094, 4096], [(69630, 2)]⟩,
          { interruption_information := 0, exception_error_code := 0, cr2 := 4096 }) := by
    rw [read_data_or_page_fault]
    norm_num [envW, Nat.min_def]
    rw [read_data_or_page_fault]
    norm_num [envW, inject_page_fault, inject_interuption]
  rw [hstep]
  refine ⟨rfl, rfl, rfl, rfl, rfl⟩

end HyperHook
